import Mathlib

/-!
Shallow embedding of the `clg-gpt-backend` repository (src/main.py, src/database.py):
a FastAPI campus-portal backend with user registration/login, a chat proxy and
static lookup endpoints.  Machine strings are modelled as Lean `String`
(sequences of code points, matching Python `str`); `str.lower`/`str.upper` and
the regex classes `\d` are modelled on the ASCII range, which covers every
constant appearing in the program.  The SQLite `users` table is modelled as a
list of records with the uniqueness constraints of its schema (src/main.py
lines 75-86).
-/

deriving instance DecidableEq for Except

namespace ClgGpt

/-- Python `str.lower` (ASCII range). -/
def toLowerStr (s : String) : String := String.mk (s.data.map Char.toLower)

/-- Python `str.upper` (ASCII range). -/
def toUpperStr (s : String) : String := String.mk (s.data.map Char.toUpper)

/-- Python `str.capitalize` (ASCII range). -/
def capitalizeStr (s : String) : String :=
  match s.data with
  | [] => ""
  | c :: cs => String.mk (Char.toUpper c :: cs.map Char.toLower)

/-- `pat` is a prefix of `l` (used to model substring search). -/
def startsWithChars : List Char → List Char → Bool
  | [], _ => true
  | _ :: _, [] => false
  | a :: as, b :: bs => a == b && startsWithChars as bs

/-- `sub` occurs somewhere in `l`. -/
def hasSubChars : List Char → List Char → Bool
  | l, [] => l == l
  | [], _ :: _ => false
  | a :: as, s :: ss => startsWithChars (s :: ss) (a :: as) || hasSubChars as (s :: ss)

/-- Python's `sub in s` on strings. -/
def containsSub (s sub : String) : Bool := hasSubChars s.data sub.data

/-! ### The user record (SQLite `users` table, src/main.py lines 75-86) -/

structure UserRecord where
  email : String
  full_name : String
  username : String
  branch : String
  usn : String
  study_year : Int
  role : String
  password_hash : String
deriving DecidableEq, Repr

/-! ### Raw registration request body (JSON fields of POST /register).
`branch` is `Option` so that an absent field can be expressed; the other
fields the claims exercise are always supplied. -/

structure RegistrationInput where
  email : String
  full_name : String
  username : String
  branch : Option String
  usn : String
  study_year : Int
  role : String
  password : String
deriving DecidableEq, Repr

/-- The validated `UserRegistration` pydantic model (src/main.py lines 157-202). -/
structure UserRegistration where
  email : String
  full_name : String
  username : String
  branch : String
  usn : String
  study_year : Int
  role : String
  password : String
deriving DecidableEq, Repr

def ALLOWED_BRANCHES : List String := ["CS", "AI", "CSBS", "CSD", "IS", "EC"]
def ALLOWED_ROLES : List String := ["student", "faculty", "placement_cell"]

/-- The `branch_map` dict inside `validate_usn_format` (src/main.py line 173). -/
def branch_map : List (String × String) :=
  [("CS", "cs"), ("AI", "ai"), ("CSBS", "cb"), ("CSD", "cd"), ("IS", "is"), ("EC", "ec")]

/-- Core of the regex `4cb(\d{2})(code)(\d{3})` against an already
lower-cased character list (the pattern is compiled with `re.IGNORECASE`
and all its letters are lower-case). `\d` is modelled as an ASCII digit. -/
def matchesUsnCore (code : String) : List Char → Bool
  | '4' :: 'c' :: 'b' :: y1 :: y2 :: rest =>
      y1.isDigit && y2.isDigit &&
      startsWithChars code.data rest &&
      (match rest.drop code.data.length with
       | [n1, n2, n3] => n1.isDigit && n2.isDigit && n3.isDigit
       | _ => false)
  | _ => false

/-- `re.match(rf"^4cb(\d{2})({code})(\d{3})$", v, re.IGNORECASE)` — in Python
`$` also matches just before one trailing newline. -/
def pyMatchStudentUsn (code : String) (v : String) : Bool :=
  let l := (toLowerStr v).data
  matchesUsnCore code l ||
    (l.getLast? == some '\n' && matchesUsnCore code l.dropLast)

/-- `re.match(r"^\d{10}$", v)` with the same `$` semantics. -/
def pyMatchTenDigits (v : String) : Bool :=
  let l := v.data
  (l.length == 10 && l.all Char.isDigit) ||
    (l.length == 11 && l.getLast? == some '\n' && l.dropLast.all Char.isDigit)

/-- `validate_usn_format` (src/main.py lines 167-191).  `role` and `branch`
are the values available in the validator's `values` dict when it runs. -/
def validate_usn_format (role : Option String) (branch : Option String) (v : String) :
    Except String String :=
  if role == some "student" then
    let expected_branch_code :=
      match branch with
      | some b => if b == "" then none else branch_map.lookup (toUpperStr b)
      | none => none
    match expected_branch_code with
    | none => .error "Internal branch code error."
    | some code =>
        if pyMatchStudentUsn code v then .ok (toLowerStr v)
        else .error ("USN must be in the format 4cbYY[BranchCode]NNN, specific to the selected branch (" ++ code ++ ").")
  else if role == some "faculty" || role == some "placement_cell" then
    if pyMatchTenDigits v then .ok (toLowerStr v)
    else .error "Employee ID must be exactly 10 digits (MMyyIDNNNN)."
  else
    .ok (toLowerStr v)

/-- `validate_study_year_by_role` (src/main.py lines 193-202). -/
def validate_study_year_by_role (role : Option String) (v : Int) : Except String Int :=
  match role with
  | some "student" => if 1 ≤ v ∧ v ≤ 4 then .ok v else .error "Student study_year must be between 1 and 4."
  | some r =>
      if r == "faculty" || r == "placement_cell" then
        if v ≠ 0 then .error (r ++ " must have a study_year of 0.") else .ok v
      else .ok v
  | none => .ok v

/-- Modelled from the external `EmailStr` validator (the `email-validator`
package used by pydantic): accepts a string with exactly one `@` separating a
nonempty local part and a nonempty domain; the domain is lower-cased, the
local part is preserved as submitted. -/
def validateEmailStr (s : String) : Except String String :=
  let l := s.data.takeWhile (fun c => c != '@')
  match s.data.dropWhile (fun c => c != '@') with
  | '@' :: d =>
      if l ≠ [] ∧ d ≠ [] ∧ '@' ∉ d then
        .ok (String.mk (l ++ '@' :: d.map Char.toLower))
      else .error "value is not a valid email address"
  | _ => .error "value is not a valid email address"

/-- The pydantic validation pipeline for `UserRegistration`.  Fields are
validated in declaration order (email, full_name, username, branch, usn,
study_year, role, password); a field validator only sees the fields declared
before its own in its `values` dict, so when `validate_usn_format` and
`validate_study_year_by_role` run, `values.get('role')` is `None`.
(Pydantic collects every field error rather than stopping at the first;
`Except` short-circuits, but the set of accepted inputs is identical.) -/
def parseRegistration (i : RegistrationInput) : Except String UserRegistration := do
  let email ← validateEmailStr i.email
  let full_name := i.full_name
  let username ←
    if i.username.length ≥ 4 then pure i.username
    else throw "String should have at least 4 characters"
  let branch ←
    match i.branch with
    | some b =>
        if ALLOWED_BRANCHES.contains b then pure b
        else throw "Input should be CS, AI, CSBS, CSD, IS or EC"
    | none => throw "Field required"
  let usn ← validate_usn_format none (some branch) i.usn
  let study_year ←
    if ([0, 1, 2, 3, 4] : List Int).contains i.study_year then pure i.study_year
    else throw "Input should be 0, 1, 2, 3 or 4"
  let study_year ← validate_study_year_by_role none study_year
  let role ←
    if ALLOWED_ROLES.contains i.role then pure i.role
    else throw "Input should be student, faculty or placement_cell"
  let password ←
    if i.password.length ≥ 8 then pure i.password
    else throw "String should have at least 8 characters"
  pure { email := email, full_name := full_name, username := username, branch := branch,
         usn := usn, study_year := study_year, role := role, password := password }

/-! ### Password hashing (src/main.py lines 37, 143-149) -/

/-- Modelled from the spec: `pwd_context = CryptContext(schemes=["sha256_crypt"])`
is the external passlib library.  Following the spec's "one-way, salted
hashing function", the stored hash is `salt ++ "$" ++ checksum` where the
checksum is an idealised collision-free digest of the password
(collision-resistance idealised as injectivity; one-wayness is a
computational-hardness property outside this model).  Passlib salts are drawn
from a 64-character alphabet that does not contain `$`. -/
def hash_password (salt password : String) : String := salt ++ "$" ++ password

/-- The salt component a verifier recovers from a stored hash. -/
def saltOf (hashed : String) : String :=
  String.mk (hashed.data.takeWhile (fun c => c != '$'))

/-- Modelled from the spec: passlib's `verify` parses the salt out of the
stored hash, recomputes the hash of the candidate password under that salt
and compares the results. -/
def verify_password (plain hashed : String) : Bool :=
  hashed == hash_password (saltOf hashed) plain

/-! ### The user store (SQLite, src/main.py lines 69-86 and 224-240).
`INSERT INTO users` enforces the `PRIMARY KEY` on `email` and the `UNIQUE`
constraints on `username` and `usn`; a violated constraint aborts the
statement (the table is unchanged) and raises `sqlite3.IntegrityError`
whose message names the constrained column.  The implicit unique indexes
are checked in schema order: email, username, usn. -/

def insert_user (store : List UserRecord) (r : UserRecord) :
    Except String (List UserRecord) :=
  if store.any (fun u => u.email == r.email) then
    .error "UNIQUE constraint failed: users.email"
  else if store.any (fun u => u.username == r.username) then
    .error "UNIQUE constraint failed: users.username"
  else if store.any (fun u => u.usn == r.usn) then
    .error "UNIQUE constraint failed: users.usn"
  else
    .ok (store ++ [r])

/-- HTTP-level results: `ok` is a 2xx body, `err` is an `HTTPException`
(status code, detail) or a pydantic request-validation failure. -/
inductive ApiResult (α : Type) where
  | ok : α → ApiResult α
  | err : Nat → String → ApiResult α
deriving DecidableEq, Repr

structure RegisterSuccess where
  message : String
  username : String
deriving DecidableEq, Repr

/-- The row built by the `INSERT` in `register_user` (src/main.py lines
227-239): branch upper-cased, usn lower-cased, role lower-cased. -/
def mkRecord (u : UserRegistration) (hashed : String) : UserRecord :=
  { email := u.email, full_name := u.full_name, username := u.username,
    branch := toUpperStr u.branch, usn := toLowerStr u.usn,
    study_year := u.study_year, role := toLowerStr u.role,
    password_hash := hashed }

/-- `POST /register` (src/main.py lines 221-249).  The pydantic model runs
first (FastAPI turns a validation failure into a 422 response before the
handler body executes); `salt` is the random salt passlib draws for this
call. -/
def register_user (store : List UserRecord) (salt : String) (i : RegistrationInput) :
    ApiResult RegisterSuccess × List UserRecord :=
  match parseRegistration i with
  | .error e => (.err 422 e, store)
  | .ok user_data =>
    let hashed_password := hash_password salt user_data.password
    match insert_user store (mkRecord user_data hashed_password) with
    | .ok store' =>
        (.ok { message := "Registration successful!", username := user_data.username }, store')
    | .error e =>
        let detail :=
          if containsSub e "email" then "Email already registered."
          else if containsSub e "usn" then "USN/Employee ID already registered."
          else if containsSub e "username" then "Username already taken."
          else "Email, USN/Employee ID, or Username already exists."
        (.err 400 detail, store)

/-- `SELECT ... FROM users WHERE email = ?` followed by `fetchone()`:
SQLite TEXT comparison is exact (case-sensitive). -/
def find_user_by_email (store : List UserRecord) (email : String) : Option UserRecord :=
  store.find? (fun r => r.email == email)

structure LoginSuccess where
  message : String
  role : String
  study_year : Int
  dashboard : String
deriving DecidableEq, Repr

/-- The dashboard expression of src/main.py line 270. -/
def loginDashboard (role : String) (study_year : Int) : String :=
  if role == "student" && (study_year == 3 || study_year == 4) then "student_placements"
  else role

/-- `POST /login` (src/main.py lines 251-273). -/
def login_user (store : List UserRecord) (email password : String) :
    ApiResult LoginSuccess :=
  match find_user_by_email store email with
  | none => .err 401 "Invalid email or password."
  | some user =>
      if verify_password password user.password_hash then
        .ok { message := "Login successful", role := user.role,
              study_year := user.study_year,
              dashboard := loginDashboard user.role user.study_year }
      else .err 401 "Invalid email or password."

/-! ### The remaining endpoints (needed for the lifecycle claim) -/

/-- `POST /gemini-chat` (src/main.py lines 277-316): looks the user up by the
client-supplied email and builds the context string; the outbound AI call is
external, so the modelled success payload is the context the request is made
with.  The store is only read. -/
def get_gemini_response (store : List UserRecord) (user_email : String) :
    ApiResult String :=
  match find_user_by_email store user_email with
  | none => .err 404 "User not found."
  | some u =>
      .ok ("User Role: " ++ capitalizeStr u.role ++ ", Branch: " ++ u.branch ++
           ", Year: " ++ toString u.study_year ++ ".")

structure JobPost where
  title : String
  company : String
  description : String
  eligibility_branch : String
  application_link : String
deriving DecidableEq, Repr

/-- `POST /placement/upload-job` (src/main.py lines 320-342). -/
def upload_job_post (jobs : List JobPost) (job_data : JobPost) :
    ApiResult String × List JobPost :=
  (.ok ("Job Post for " ++ job_data.company ++ " uploaded successfully."),
   jobs ++ [job_data])

/-- `GET /placement/jobs` (src/main.py lines 344-366). -/
def get_all_job_posts (jobs : List JobPost) : ApiResult (List JobPost) :=
  if jobs.isEmpty then .ok [] else .ok jobs

def NOTES_LINK_MAP : List (String × String) :=
  [("CS", "https://drive.google.com/drive/folders/CS_2025_Syllabus_Notes_Link"),
   ("AI", "https://drive.google.com/drive/folders/AI_2025_Notes_Repository"),
   ("IS", "https://drive.google.com/drive/folders/IS_Core_Materials_Shared"),
   ("EC", "https://drive.google.com/drive/folders/EC_Sem_Materials"),
   ("CSBS", "https://drive.google.com/drive/folders/CSBS_Notes_Link"),
   ("CSD", "https://drive.google.com/drive/folders/CSD_Notes_Link")]

/-- `GET /student/notes-link/{branch}` (src/main.py lines 370-386). -/
def get_notes_link (branch : String) : ApiResult (String × String) :=
  let branch_upper := toUpperStr branch
  match NOTES_LINK_MAP.lookup branch_upper with
  | some link => .ok (branch_upper, link)
  | none => .err 404 ("Notes link not found for branch: " ++ branch_upper ++ ". Please contact the department.")

/-- The lookup key of `GET /student/schedule/{usn}`: `usn[:7].lower()`
(src/main.py line 395; Python slices by code point and never fails on a
short string). -/
def scheduleKey (usn : String) : String := toLowerStr (String.mk (usn.data.take 7))

/-- `GET /student/schedule/{usn}` (src/main.py lines 388-414); the
`schedules` table maps a usn key to a schedule JSON string. -/
def get_daily_schedule (schedules : List (String × String)) (usn : String) :
    ApiResult (String × String × String) :=
  let k := scheduleKey usn
  match schedules.lookup k with
  | none => .err 404 ("Daily schedule not found for USN prefix: " ++ k ++ ". The timetable may not be released yet.")
  | some s => .ok (k, "Daily schedule for batch " ++ k ++ ":", s)

/-! ### Whole-application state and operations (for the lifecycle claim) -/

structure AppState where
  users : List UserRecord
  jobs : List JobPost
  schedules : List (String × String)
deriving Repr

inductive Op where
  | opRegister (salt : String) (i : RegistrationInput)
  | opLogin (email password : String)
  | opChat (user_email query : String)
  | opNotesLink (branch : String)
  | opSchedule (usn : String)
  | opUploadJob (job_data : JobPost) (user_email : String)
  | opListJobs
deriving DecidableEq, Repr

def Op.isRegister : Op → Bool
  | .opRegister _ _ => true
  | _ => false

/-- State transition of each endpoint: `POST /register` commits the store
returned by `register_user`, `POST /placement/upload-job` inserts a job row,
every other endpoint only reads. -/
def step (st : AppState) (op : Op) : AppState :=
  match op with
  | .opRegister salt i => { st with users := (register_user st.users salt i).2 }
  | .opUploadJob job_data _ => { st with jobs := (upload_job_post st.jobs job_data).2 }
  | .opLogin _ _ => st
  | .opChat _ _ => st
  | .opNotesLink _ => st
  | .opSchedule _ => st
  | .opListJobs => st

/-! ### Helper lemmas -/

lemma takeWhile_ne_append (c : Char) (l r : List Char) (h : c ∉ l) :
    (l ++ c :: r).takeWhile (fun x => x != c) = l := by
  induction l with
  | nil => simp
  | cons a as ih =>
      have ha : a ≠ c := fun e => h (e ▸ List.mem_cons_self a as)
      have has : c ∉ as := fun hc => h (List.mem_cons_of_mem _ hc)
      simp [List.takeWhile_cons, bne_iff_ne, ha, Ne.symm, ih has]

lemma data_hash_password (salt p : String) :
    (hash_password salt p).data = salt.data ++ '$' :: p.data := by
  simp [hash_password, String.data_append]

lemma saltOf_hash_password (salt p : String) (h : '$' ∉ salt.data) :
    saltOf (hash_password salt p) = salt := by
  have : (hash_password salt p).data.takeWhile (fun x => x != '$') = salt.data := by
    rw [data_hash_password, takeWhile_ne_append _ _ _ h]
  simp only [saltOf, this]

lemma hash_password_inj (salt p q : String)
    (h : hash_password salt p = hash_password salt q) : p = q := by
  have hd := congrArg String.data h
  rw [data_hash_password, data_hash_password] at hd
  have := List.append_cancel_left hd
  exact String.ext (List.cons.injEq .. ▸ this).2

/-- C8: verifying a password against its own (salted) hash succeeds, and
verifying any other password against that hash fails; the stored value is
the salted-hash output, not the plaintext. -/
theorem C8_hash_verify_roundtrip (salt p q : String) (hs : '$' ∉ salt.data) :
    verify_password p (hash_password salt p) = true ∧
    (p ≠ q → verify_password q (hash_password salt p) = false) := by
  constructor
  · simp [verify_password, saltOf_hash_password salt p hs]
  · intro hpq
    simp only [verify_password, saltOf_hash_password salt p hs]
    exact beq_eq_false_iff_ne.mpr fun he => hpq (hash_password_inj salt p q he)

/-- C8 witness: the round trip at a concrete salt and concrete passwords. -/
theorem C8_hash_verify_roundtrip_witness :
    '$' ∉ ("saltsalt" : String).data ∧
    "hunter22" ≠ "hunter23" ∧
    verify_password "hunter22" (hash_password "saltsalt" "hunter22") = true ∧
    verify_password "hunter23" (hash_password "saltsalt" "hunter22") = false := by
  have h := C8_hash_verify_roundtrip "saltsalt" "hunter22" "hunter23" (by decide)
  exact ⟨by decide, by decide, h.1, h.2 (by decide)⟩

lemma parseRegistration_ok_facts (i : RegistrationInput) (u : UserRegistration)
    (h : parseRegistration i = .ok u) :
    ALLOWED_ROLES.contains u.role = true ∧ u.role = i.role ∧
    (∃ b, i.branch = some b ∧ ALLOWED_BRANCHES.contains b = true ∧ u.branch = b) := by
  simp only [parseRegistration, bind, Except.bind, pure, Except.pure, throw, throwThe,
    MonadExceptOf.throw] at h
  iterate 10 (all_goals try split at h)
  all_goals cases h
  all_goals simp_all

lemma insert_user_ok (store : List UserRecord) (r : UserRecord) (store' : List UserRecord)
    (h : insert_user store r = .ok store') : store' = store ++ [r] := by
  unfold insert_user at h
  iterate 3 (all_goals try split at h)
  all_goals cases h
  rfl

/-! ### C1: the dashboard mapping -/

/-- The dashboard mapping exactly as the claim words it (in the variant whose
labels are the bare role names, which is the one this repository returns). -/
def deriveDashboardSpec (role : String) (study_year : Int) : String :=
  if role == "student" && (study_year == 3 || study_year == 4) then "student_placements"
  else if role == "student" then "student"
  else if role == "faculty" then "faculty"
  else if role == "placement_cell" then "placement_cell"
  else "general"

/-- Every stored role is one of the three registrable roles: the only path
that writes a user row is `register_user`, whose pydantic model constrains
`role` to `Literal['student', 'faculty', 'placement_cell']`. -/
def storeRolesOK (store : List UserRecord) : Prop :=
  ∀ r ∈ store, r.role ∈ ALLOWED_ROLES

lemma loginDashboard_eq_spec (role : String) (y : Int) (h : role ∈ ALLOWED_ROLES) :
    loginDashboard role y = deriveDashboardSpec role y := by
  simp only [ALLOWED_ROLES, List.mem_cons, List.not_mem_nil, or_false] at h
  rcases h with h | h | h <;> subst h <;> simp [loginDashboard, deriveDashboardSpec]

lemma mkRecord_role_allowed (u : UserRegistration) (hashed : String)
    (h : ALLOWED_ROLES.contains u.role = true) : (mkRecord u hashed).role ∈ ALLOWED_ROLES := by
  have hm : u.role ∈ ALLOWED_ROLES := by simpa using h
  have hrec : (mkRecord u hashed).role = toLowerStr u.role := rfl
  simp only [ALLOWED_ROLES, List.mem_cons, List.not_mem_nil, or_false] at hm
  rw [hrec]
  rcases hm with h' | h' | h' <;> rw [h'] <;> decide

lemma register_preserves_roles (store : List UserRecord) (salt : String)
    (i : RegistrationInput) (hw : storeRolesOK store) :
    storeRolesOK (register_user store salt i).2 := by
  unfold register_user
  cases hp : parseRegistration i with
  | error e => simpa using hw
  | ok u =>
      simp only
      cases hi : insert_user store (mkRecord u (hash_password salt u.password)) with
      | error e => simpa using hw
      | ok store' =>
          simp only
          have hs := insert_user_ok store _ store' hi
          subst hs
          intro r hr
          rcases List.mem_append.mp hr with hr | hr
          · exact hw r hr
          · have : r = mkRecord u (hash_password salt u.password) := by simpa using hr
            subst this
            exact mkRecord_role_allowed u _ (parseRegistration_ok_facts i u hp).1

/-- C1: for every successful login against a store whose roles all come from
registration, the returned dashboard label equals the spec's pure mapping of
the stored (role, studyYear) — senior students (year 3 or 4) get
`student_placements`, other students `student`, faculty `faculty`,
placement_cell `placement_cell` — and registration only ever produces stores
whose roles are among the three registrable ones. -/
theorem C1_dashboard_from_role_year :
    (∀ (store : List UserRecord) (e p : String) (out : LoginSuccess),
        storeRolesOK store → login_user store e p = .ok out →
        out.dashboard = deriveDashboardSpec out.role out.study_year) ∧
    (∀ (store : List UserRecord) (salt : String) (i : RegistrationInput),
        storeRolesOK store → storeRolesOK (register_user store salt i).2) := by
  constructor
  · intro store e p out hw h
    unfold login_user at h
    cases hf : find_user_by_email store e with
    | none => simp only [hf] at h; cases h
    | some r =>
        simp only [hf] at h
        by_cases hv : verify_password p r.password_hash = true
        · rw [if_pos hv] at h
          cases h
          have hr : r ∈ store := List.mem_of_find?_eq_some hf
          simpa using loginDashboard_eq_spec r.role r.study_year (hw r hr)
        · rw [if_neg hv] at h
          cases h
  · exact register_preserves_roles

def c1Store : List UserRecord :=
  [{ email := "a@x.com", full_name := "A", username := "stud1", branch := "CS",
     usn := "4cb23cs001", study_year := 3, role := "student",
     password_hash := hash_password "saltsalt" "abcdefgh" }]

def c1Out : LoginSuccess :=
  { message := "Login successful", role := "student", study_year := 3,
    dashboard := "student_placements" }

/-- C1 witness: a concrete third-year student logs in and receives the
`student_placements` dashboard, as the spec mapping dictates. -/
theorem C1_dashboard_from_role_year_witness :
    storeRolesOK c1Store ∧
    login_user c1Store "a@x.com" "abcdefgh" = .ok c1Out ∧
    c1Out.dashboard = deriveDashboardSpec c1Out.role c1Out.study_year :=
  ⟨by unfold storeRolesOK c1Store; decide, by decide,
   C1_dashboard_from_role_year.1 c1Store "a@x.com" "abcdefgh" c1Out
     (by unfold storeRolesOK c1Store; decide) (by decide)⟩

/-! ### C2: email case handling -/

lemma dropWhile_ne_append (c : Char) (l r : List Char) (h : c ∉ l) :
    (l ++ c :: r).dropWhile (fun x => x != c) = c :: r := by
  induction l with
  | nil => simp
  | cons a as ih =>
      have ha : a ≠ c := fun e => h (e ▸ List.mem_cons_self a as)
      have has : c ∉ as := fun hc => h (List.mem_cons_of_mem _ hc)
      simp [List.dropWhile_cons, bne_iff_ne, ha, Ne.symm, ih has]

def c2Input : RegistrationInput :=
  { email := "A@x.com", full_name := "S", username := "stud1", branch := some "CS",
    usn := "4cb23cs001", study_year := 2, role := "student", password := "abcdefgh" }

/-- C2 counterexample: registering with email `A@x.com` stores a record keyed
by `A@x.com` — not by `lowercase("A@x.com") = "a@x.com"` — and logging in with
`a@x.com`, which lower-cases to the same string, does not find the record:
the login fails 401.  So emails are not normalized to lower case before
storage or comparison. -/
theorem C2_email_not_lowercased_cex :
    (register_user [] "saltsalt" c2Input).2 =
      [{ email := "A@x.com", full_name := "S", username := "stud1", branch := "CS",
         usn := "4cb23cs001", study_year := 2, role := "student",
         password_hash := hash_password "saltsalt" "abcdefgh" }] ∧
    toLowerStr "A@x.com" = toLowerStr "a@x.com" ∧
    login_user (register_user [] "saltsalt" c2Input).2 "a@x.com" "abcdefgh" =
      .err 401 "Invalid email or password." := by decide

/-- C2 amended: the application itself applies no lower-casing to emails.
The `EmailStr` validator lower-cases only the domain and preserves the local
part as submitted; registration stores exactly the validated email (the
inserted row is the parsed model, unchanged); and login looks the account up
by exact, case-sensitive string equality with the submitted email. -/
theorem C2_email_stored_and_compared_verbatim :
    (∀ l d : String, l.data ≠ [] → d.data ≠ [] → '@' ∉ l.data → '@' ∉ d.data →
        validateEmailStr (l ++ "@" ++ d) = .ok (l ++ "@" ++ toLowerStr d)) ∧
    (∀ (store store' : List UserRecord) (salt : String) (i : RegistrationInput)
        (u : UserRegistration) (resp : ApiResult RegisterSuccess),
        parseRegistration i = .ok u →
        register_user store salt i = (resp, store') →
        store' = store ∨ store' = store ++ [mkRecord u (hash_password salt u.password)]) ∧
    (∀ (u : UserRegistration) (h : String), (mkRecord u h).email = u.email) ∧
    (∀ (store : List UserRecord) (e p : String) (out : LoginSuccess),
        login_user store e p = .ok out → ∃ r ∈ store, r.email = e) := by
  refine ⟨?_, ?_, fun u h => rfl, ?_⟩
  · intro l d hl hd hal had
    have hdata : (l ++ "@" ++ d).data = l.data ++ '@' :: d.data := by
      simp [String.data_append]
    unfold validateEmailStr
    rw [hdata, takeWhile_ne_append _ _ _ hal, dropWhile_ne_append _ _ _ hal]
    have hout : String.mk (l.data ++ '@' :: d.data.map Char.toLower) =
        l ++ "@" ++ toLowerStr d := by
      apply String.ext
      simp [String.data_append, toLowerStr]
    simp [hl, hd, had, hout]
  · intro store store' salt i u resp hp hr
    unfold register_user at hr
    rw [hp] at hr
    simp only at hr
    cases hi : insert_user store (mkRecord u (hash_password salt u.password)) with
    | error e =>
        rw [hi] at hr
        simp only [Prod.mk.injEq] at hr
        exact .inl hr.2.symm
    | ok s' =>
        rw [hi] at hr
        simp only [Prod.mk.injEq] at hr
        exact .inr (hr.2 ▸ insert_user_ok store _ s' hi)
  · intro store e p out h
    unfold login_user at h
    cases hf : find_user_by_email store e with
    | none => rw [hf] at h; cases h
    | some r =>
        refine ⟨r, List.mem_of_find?_eq_some hf, ?_⟩
        have := List.find?_some hf
        simpa using this

/-- C2 amended witness: `User@Ex.com` is validated to `User@ex.com` (local
part untouched), and a successful login implies an exactly matching stored
email. -/
theorem C2_email_stored_and_compared_verbatim_witness :
    ("User" : String).data ≠ [] ∧ ("Ex.com" : String).data ≠ [] ∧
    '@' ∉ ("User" : String).data ∧ '@' ∉ ("Ex.com" : String).data ∧
    validateEmailStr ("User" ++ "@" ++ "Ex.com") = .ok ("User" ++ "@" ++ toLowerStr "Ex.com") ∧
    login_user (register_user [] "saltsalt" c2Input).2 "A@x.com" "abcdefgh" =
      .ok { message := "Login successful", role := "student", study_year := 2,
            dashboard := "student" } ∧
    ∃ r ∈ (register_user [] "saltsalt" c2Input).2, r.email = "A@x.com" :=
  ⟨by decide, by decide, by decide, by decide,
   C2_email_stored_and_compared_verbatim.1 "User" "Ex.com"
     (by decide) (by decide) (by decide) (by decide),
   by decide,
   C2_email_stored_and_compared_verbatim.2.2.2 (register_user [] "saltsalt" c2Input).2
     "A@x.com" "abcdefgh"
     { message := "Login successful", role := "student", study_year := 2,
       dashboard := "student" } (by decide)⟩

/-! ### C7: the branch field -/

def c7Input : RegistrationInput :=
  { email := "f@x.com", full_name := "F", username := "fac1", branch := none,
    usn := "1234567890", study_year := 0, role := "faculty", password := "abcdefgh" }

/-- C7 counterexample: a faculty registration that supplies no branch is
rejected by the pydantic model with "Field required" — `branch` is a required
`Literal` field for every role, so the registration never reaches the store. -/
theorem C7_branch_required_cex :
    parseRegistration c7Input = .error "Field required" ∧
    register_user [] "saltsalt" c7Input = (.err 422 "Field required", []) := by decide

/-- C7 amended: `branch` is required for every role, not only for students:
any accepted registration — student, faculty or placement_cell — supplied a
branch, and that branch is one of the fixed allowed set
(CS, AI, CSBS, CSD, IS, EC). -/
theorem C7_branch_required_all_roles (i : RegistrationInput) (u : UserRegistration)
    (h : parseRegistration i = .ok u) :
    ∃ b, i.branch = some b ∧ ALLOWED_BRANCHES.contains b = true ∧ u.branch = b :=
  (parseRegistration_ok_facts i u h).2.2

def c7OkInput : RegistrationInput :=
  { email := "f@x.com", full_name := "F", username := "fac1", branch := some "CS",
    usn := "1234567890", study_year := 0, role := "faculty", password := "abcdefgh" }

/-- C7 amended witness: a concrete accepted faculty registration did supply
an allowed branch. -/
theorem C7_branch_required_all_roles_witness :
    parseRegistration c7OkInput =
      .ok { email := "f@x.com", full_name := "F", username := "fac1", branch := "CS",
            usn := "1234567890", study_year := 0, role := "faculty",
            password := "abcdefgh" } ∧
    ∃ b, c7OkInput.branch = some b ∧ ALLOWED_BRANCHES.contains b = true ∧
      ({ email := "f@x.com", full_name := "F", username := "fac1", branch := "CS",
         usn := "1234567890", study_year := 0, role := "faculty",
         password := "abcdefgh" } : UserRegistration).branch = b :=
  ⟨by decide, C7_branch_required_all_roles c7OkInput _ (by decide)⟩

/-! ### C3: duplicate registrations -/

/-- C3: if a parsed registration collides with the store on email, usn or
username, `register_user` fails with HTTP 400, the reported detail names a
field that actually collides, and the store is returned unchanged — no second
record is created and no existing record is modified. -/
theorem C3_duplicate_conflict (store : List UserRecord) (salt : String)
    (i : RegistrationInput) (u : UserRegistration)
    (hp : parseRegistration i = .ok u)
    (hdup : store.any (fun r => r.email == u.email) = true ∨
            store.any (fun r => r.usn == toLowerStr u.usn) = true ∨
            store.any (fun r => r.username == u.username) = true) :
    ∃ d, register_user store salt i = (.err 400 d, store) ∧
      ((d = "Email already registered." ∧
          store.any (fun r => r.email == u.email) = true) ∨
       (d = "USN/Employee ID already registered." ∧
          store.any (fun r => r.usn == toLowerStr u.usn) = true) ∨
       (d = "Username already taken." ∧
          store.any (fun r => r.username == u.username) = true)) := by
  unfold register_user
  rw [hp]
  simp only
  by_cases he : store.any
      (fun r => r.email == (mkRecord u (hash_password salt u.password)).email) = true
  · have hi : insert_user store (mkRecord u (hash_password salt u.password)) =
        .error "UNIQUE constraint failed: users.email" := by
      unfold insert_user; rw [if_pos he]
    rw [hi]
    exact ⟨"Email already registered.", rfl, .inl ⟨rfl, he⟩⟩
  · by_cases hn : store.any
        (fun r => r.username == (mkRecord u (hash_password salt u.password)).username) = true
    · have hi : insert_user store (mkRecord u (hash_password salt u.password)) =
          .error "UNIQUE constraint failed: users.username" := by
        unfold insert_user; rw [if_neg he, if_pos hn]
      rw [hi]
      exact ⟨"Username already taken.", rfl, .inr (.inr ⟨rfl, hn⟩)⟩
    · by_cases hu : store.any
          (fun r => r.usn == (mkRecord u (hash_password salt u.password)).usn) = true
      · have hi : insert_user store (mkRecord u (hash_password salt u.password)) =
            .error "UNIQUE constraint failed: users.usn" := by
          unfold insert_user; rw [if_neg he, if_neg hn, if_pos hu]
        rw [hi]
        exact ⟨"USN/Employee ID already registered.", rfl, .inr (.inl ⟨rfl, hu⟩)⟩
      · exact absurd hdup (by push_neg; exact ⟨he, hu, hn⟩)

def c3Store : List UserRecord :=
  [{ email := "a@x.com", full_name := "A", username := "stud1", branch := "CS",
     usn := "4cb23cs001", study_year := 2, role := "student",
     password_hash := "saltsalt$abcdefgh" }]

def c3Dup : RegistrationInput :=
  { email := "a@x.com", full_name := "B", username := "other1", branch := some "CS",
    usn := "4cb23cs002", study_year := 2, role := "student", password := "abcdefgh" }

def c3DupParsed : UserRegistration :=
  { email := "a@x.com", full_name := "B", username := "other1", branch := "CS",
    usn := "4cb23cs002", study_year := 2, role := "student", password := "abcdefgh" }

/-- C3 witness: a second registration re-using a stored email fails 400 with
"Email already registered." and leaves the store as it was. -/
theorem C3_duplicate_conflict_witness :
    parseRegistration c3Dup = .ok c3DupParsed ∧
    c3Store.any (fun r => r.email == c3DupParsed.email) = true ∧
    ∃ d, register_user c3Store "saltsalt" c3Dup = (.err 400 d, c3Store) ∧
      ((d = "Email already registered." ∧
          c3Store.any (fun r => r.email == c3DupParsed.email) = true) ∨
       (d = "USN/Employee ID already registered." ∧
          c3Store.any (fun r => r.usn == toLowerStr c3DupParsed.usn) = true) ∨
       (d = "Username already taken." ∧
          c3Store.any (fun r => r.username == c3DupParsed.username) = true)) :=
  ⟨by decide, by decide,
   C3_duplicate_conflict c3Store "saltsalt" c3Dup c3DupParsed (by decide)
     (Or.inl (by decide))⟩

/-! ### C4: login failure indistinguishability -/

/-- C4: a login with an email absent from the store and a login with a
present email but a non-verifying password produce the identical response:
HTTP 401 with detail "Invalid email or password.". -/
theorem C4_login_failures_indistinguishable
    (s1 : List UserRecord) (e1 p1 : String) (s2 : List UserRecord) (e2 p2 : String)
    (r : UserRecord)
    (h1 : find_user_by_email s1 e1 = none)
    (h2 : find_user_by_email s2 e2 = some r)
    (hv : verify_password p2 r.password_hash = false) :
    login_user s1 e1 p1 = .err 401 "Invalid email or password." ∧
    login_user s2 e2 p2 = login_user s1 e1 p1 := by
  have ha : login_user s1 e1 p1 = .err 401 "Invalid email or password." := by
    unfold login_user; rw [h1]
  have hb : login_user s2 e2 p2 = .err 401 "Invalid email or password." := by
    unfold login_user
    rw [h2]
    simp [hv]
  exact ⟨ha, hb.trans ha.symm⟩

def c4Store : List UserRecord :=
  [{ email := "b@x.com", full_name := "B", username := "stud2", branch := "CS",
     usn := "4cb23cs002", study_year := 2, role := "student",
     password_hash := "saltsalt$abcdefgh" }]

/-- C4 witness: unknown email `nosuch@x.com` and known email `b@x.com` with a
wrong password get byte-identical 401 responses. -/
theorem C4_login_failures_indistinguishable_witness :
    find_user_by_email c4Store "nosuch@x.com" = none ∧
    find_user_by_email c4Store "b@x.com" =
      some { email := "b@x.com", full_name := "B", username := "stud2", branch := "CS",
             usn := "4cb23cs002", study_year := 2, role := "student",
             password_hash := "saltsalt$abcdefgh" } ∧
    verify_password "wrongpw1" "saltsalt$abcdefgh" = false ∧
    login_user c4Store "nosuch@x.com" "abcdefgh" = .err 401 "Invalid email or password." ∧
    login_user c4Store "b@x.com" "wrongpw1" = login_user c4Store "nosuch@x.com" "abcdefgh" :=
  ⟨by decide, by decide, by decide,
   (C4_login_failures_indistinguishable c4Store "nosuch@x.com" "abcdefgh"
      c4Store "b@x.com" "wrongpw1"
      { email := "b@x.com", full_name := "B", username := "stud2", branch := "CS",
        usn := "4cb23cs002", study_year := 2, role := "student",
        password_hash := "saltsalt$abcdefgh" }
      (by decide) (by decide) (by decide)).1,
   (C4_login_failures_indistinguishable c4Store "nosuch@x.com" "abcdefgh"
      c4Store "b@x.com" "wrongpw1"
      { email := "b@x.com", full_name := "B", username := "stud2", branch := "CS",
        usn := "4cb23cs002", study_year := 2, role := "student",
        password_hash := "saltsalt$abcdefgh" }
      (by decide) (by decide) (by decide)).2⟩

/-! ### C5/C6: the role-dependent validators never run -/

def c5Input : RegistrationInput :=
  { email := "s@x.com", full_name := "S", username := "stud1", branch := some "CS",
    usn := "WRONG_FORMAT", study_year := 2, role := "student", password := "abcdefgh" }

/-- C5 (code bug): a student registration whose usn matches no branch pattern
is accepted and stored (lower-cased) anyway, because `validate_usn_format`
reads `values.get('role')` while `role` is declared after `usn` and is
therefore not yet in `values` — the validator itself, had the role been
available, rejects the same usn. -/
theorem C5_usn_check_dead :
    register_user [] "saltsalt" c5Input =
      (.ok { message := "Registration successful!", username := "stud1" },
       [{ email := "s@x.com", full_name := "S", username := "stud1", branch := "CS",
          usn := "wrong_format", study_year := 2, role := "student",
          password_hash := hash_password "saltsalt" "abcdefgh" }]) ∧
    validate_usn_format (some "student") (some "CS") "WRONG_FORMAT" =
      .error "USN must be in the format 4cbYY[BranchCode]NNN, specific to the selected branch (cs)." ∧
    validate_usn_format none (some "CS") "WRONG_FORMAT" = .ok "wrong_format" := by
  refine ⟨by decide, by decide, by decide⟩

def c6Input : RegistrationInput :=
  { email := "f@x.com", full_name := "F", username := "fac1", branch := some "CS",
    usn := "1234567890", study_year := 3, role := "faculty", password := "abcdefgh" }

/-- C6 (code bug): a faculty registration with study_year 3 is accepted and
stored, because `validate_study_year_by_role` reads `values.get('role')`
before the `role` field has been validated and so skips the role check — the
validator itself, given the role, rejects a nonzero faculty study year. -/
theorem C6_study_year_check_dead :
    register_user [] "saltsalt" c6Input =
      (.ok { message := "Registration successful!", username := "fac1" },
       [{ email := "f@x.com", full_name := "F", username := "fac1", branch := "CS",
          usn := "1234567890", study_year := 3, role := "faculty",
          password_hash := hash_password "saltsalt" "abcdefgh" }]) ∧
    validate_study_year_by_role (some "faculty") 3 =
      .error "faculty must have a study_year of 0." ∧
    validate_study_year_by_role none 3 = .ok 3 := by
  refine ⟨by decide, by decide, by decide⟩

/-! ### C9: user records are append-only -/

/-- C9: every operation of the system leaves all existing user records in
place and unchanged; only registration can append a record, and it appends at
most one. -/
theorem C9_users_append_only (st : AppState) (op : Op) :
    ∃ t, (step st op).users = st.users ++ t ∧ t.length ≤ 1 ∧
      (op.isRegister = false → t = []) := by
  cases op with
  | opRegister salt i =>
      unfold step
      cases hp : parseRegistration i with
      | error e =>
          exact ⟨[], by simp [register_user, hp], by simp, fun _ => rfl⟩
      | ok u =>
          cases hi : insert_user st.users (mkRecord u (hash_password salt u.password)) with
          | error e =>
              exact ⟨[], by simp [register_user, hp, hi], by simp, fun _ => rfl⟩
          | ok s' =>
              refine ⟨[mkRecord u (hash_password salt u.password)], ?_, by simp, ?_⟩
              · simpa [register_user, hp, hi] using insert_user_ok _ _ _ hi
              · intro hf; simp [Op.isRegister] at hf
  | opLogin e p => exact ⟨[], by simp [step], by simp, fun _ => rfl⟩
  | opChat e q => exact ⟨[], by simp [step], by simp, fun _ => rfl⟩
  | opNotesLink b => exact ⟨[], by simp [step], by simp, fun _ => rfl⟩
  | opSchedule usn => exact ⟨[], by simp [step], by simp, fun _ => rfl⟩
  | opUploadJob j e => exact ⟨[], by simp [step], by simp, fun _ => rfl⟩
  | opListJobs => exact ⟨[], by simp [step], by simp, fun _ => rfl⟩

/-- C9 witness: the lifecycle theorem at a concrete state and operation. -/
theorem C9_users_append_only_witness :
    ∃ t, (step { users := [], jobs := [], schedules := [] } (.opLogin "a@x.com" "pw")).users =
        ([] : List UserRecord) ++ t ∧ t.length ≤ 1 ∧
      ((Op.opLogin "a@x.com" "pw").isRegister = false → t = []) :=
  C9_users_append_only { users := [], jobs := [], schedules := [] } (.opLogin "a@x.com" "pw")

/-! ### C10: the schedule endpoint -/

/-- C10: the response of GET /student/schedule/{usn} is a function of the
lower-cased first seven characters of the supplied usn alone, and a usn
shorter than seven characters is looked up by its entire lower-cased value. -/
theorem C10_schedule_key_determines_response :
    (∀ (schedules : List (String × String)) (u1 u2 : String),
        scheduleKey u1 = scheduleKey u2 →
        get_daily_schedule schedules u1 = get_daily_schedule schedules u2) ∧
    (∀ u : String, u.length < 7 → scheduleKey u = toLowerStr u) := by
  constructor
  · intro schedules u1 u2 h
    unfold get_daily_schedule
    rw [h]
  · intro u hu
    unfold scheduleKey
    have ht : u.data.take 7 = u.data := List.take_of_length_le (Nat.le_of_lt hu)
    rw [ht]

/-- C10 witness: `4CB23CS001` and `4cb23cs999` share the lower-cased 7-character
key and receive identical schedule responses; a 3-character usn is looked up
whole. -/
theorem C10_schedule_key_determines_response_witness :
    scheduleKey "4CB23CS001" = scheduleKey "4cb23cs999" ∧
    get_daily_schedule [("4cb23cs", "sched")] "4CB23CS001" =
      get_daily_schedule [("4cb23cs", "sched")] "4cb23cs999" ∧
    ("4cb" : String).length < 7 ∧
    scheduleKey "4cb" = toLowerStr "4cb" :=
  ⟨by decide,
   C10_schedule_key_determines_response.1 [("4cb23cs", "sched")] "4CB23CS001" "4cb23cs999"
     (by decide),
   by decide,
   C10_schedule_key_determines_response.2 "4cb" (by decide)⟩

end ClgGpt
